import Mathlib

/-!
Verification development for the `epd-waveshare` 2.7" e-paper driver
(`src/epd2in7/mod.rs`, `src/epd2in7/command.rs`, `src/epd2in7/graphics.rs`).

The panel driver is straight-line code that issues calls on a hardware
interface (`DisplayInterface`, described in the design document §4.3 as an
external-collaborator contract).  We embed every driver operation as the
list of hardware-interface calls it performs (`List HwCall`), in source
order, and give these lists semantics with a fault-injecting interpreter
`run` that mirrors Rust's `?` early-exit on transport errors:
each fallible call (a command byte or a data transmission) either succeeds
and is appended to the emitted trace, or is the injected failure point, in
which case the error value is returned unchanged and nothing further is
emitted.  Infallible calls (reset pulses, busy-polling) always succeed.
-/

set_option maxRecDepth 2000

namespace Epd2in7

/-- SPI command opcodes, transcribed from `src/epd2in7/command.rs`
(enum `Command`, one variant per protocol operation). -/
inductive Command where
  | PanelSetting
  | PowerSetting
  | PowerOff
  | PowerOffSequenceSetting
  | PowerOn
  | PowerOnMeasure
  | BoosterSoftStart
  | DeepSleep
  | DataStartTransmission1
  | DataStop
  | DisplayRefresh
  | PartialDataStartTransmission1
  | PartialDataStartTransmission2
  | PartialDisplayRefresh
  | LutForVcom
  | LutWhiteToWhite
  | LutBlackToWhite
  | LutWhiteToBlack
  | LutBlackToBlack
  | PllControl
  | TemperatureSensorCommand
  | TemperatureSensorCalibration
  | TemperatureSensorWrite
  | TemperatureSensorRead
  | VcomAndDataIntervalSetting
  | LowPowerDetection
  | TconSetting
  | TconResolution
  | SourceAndGateStartSetting
  | GetStatus
  | AutoMeasureVcom
  | VcomValue
  | VcomDcSettingRegister
  | ProgramMode
  | ActiveProgram
  | ReadOtpData
  | PowerOptimization
  | DataStartTransmission2
deriving DecidableEq, Repr

/-- Opcode of each command (`command.rs`: `Command` discriminants /
`traits::Command::address`). -/
def Command.address : Command → Nat
  | .PanelSetting => 0x00
  | .PowerSetting => 0x01
  | .PowerOff => 0x02
  | .PowerOffSequenceSetting => 0x03
  | .PowerOn => 0x04
  | .PowerOnMeasure => 0x05
  | .BoosterSoftStart => 0x06
  | .DeepSleep => 0x07
  | .DataStartTransmission1 => 0x10
  | .DataStop => 0x11
  | .DisplayRefresh => 0x12
  | .PartialDataStartTransmission1 => 0x14
  | .PartialDataStartTransmission2 => 0x15
  | .PartialDisplayRefresh => 0x16
  | .LutForVcom => 0x20
  | .LutWhiteToWhite => 0x21
  | .LutBlackToWhite => 0x22
  | .LutWhiteToBlack => 0x23
  | .LutBlackToBlack => 0x24
  | .PllControl => 0x30
  | .TemperatureSensorCommand => 0x40
  | .TemperatureSensorCalibration => 0x41
  | .TemperatureSensorWrite => 0x42
  | .TemperatureSensorRead => 0x43
  | .VcomAndDataIntervalSetting => 0x50
  | .LowPowerDetection => 0x51
  | .TconSetting => 0x60
  | .TconResolution => 0x61
  | .SourceAndGateStartSetting => 0x62
  | .GetStatus => 0x71
  | .AutoMeasureVcom => 0x80
  | .VcomValue => 0x81
  | .VcomDcSettingRegister => 0x82
  | .ProgramMode => 0xA0
  | .ActiveProgram => 0xA1
  | .ReadOtpData => 0xA2
  | .PowerOptimization => 0xF8
  | .DataStartTransmission2 => 0x13

/-- Width of the display (`mod.rs`: `pub const WIDTH: u32 = 264`). -/
def WIDTH : Nat := 264

/-- Height of the display (`mod.rs`: `pub const HEIGHT: u32 = 176`). -/
def HEIGHT : Nat := 176

/-- `mod.rs`: `const IS_BUSY_LOW: bool = true` — the busy line is
active-low for this panel model. -/
def IS_BUSY_LOW : Bool := true

/-- Modelled from the spec: `crate::interface::DisplayInterface` is not under
`src/`; §4.3 gives its contract.  One hardware-interface call, as observed by
a test double: a timed reset with a pulse count, a command byte, a data
transmission, or a blocking busy-poll with the given active level. -/
inductive HwCall where
  | reset (pulses : Nat)
  | cmd (opcode : Nat)
  | data (bytes : List Nat)
  | busyWait (isBusyLow : Bool)
deriving DecidableEq, Repr

/-- Modelled from the spec: §4.3 failure model — "any SPI transmission may
fail with a transport error".  Command and data transmissions are fallible;
reset pulses and busy-polling are GPIO operations with no failure path
(in `mod.rs` they are the calls not followed by `?`). -/
def HwCall.fallible : HwCall → Bool
  | .cmd _ => true
  | .data _ => true
  | .reset _ => false
  | .busyWait _ => false

/-- Number of fallible hardware-interface calls in a program. -/
def countFallible : List HwCall → Nat
  | [] => 0
  | c :: rest => (if c.fallible then 1 else 0) + countFallible rest

/-- Modelled from the spec: §4.3 — the interpreter for a hardware-call
program.  `failAt = some k` injects a transport error (of arbitrary type `ε`,
value `e`) at the `k`-th fallible call, counting from 0; `failAt = none`
lets every call succeed.  Mirrors Rust `?`: on the failing call the error is
returned as-is and no further call is made; the second component is the
trace of calls actually performed (the failing transmission emits nothing). -/
def run (ε : Type) (e : ε) : Option Nat → List HwCall → Except ε Unit × List HwCall
  | _, [] => (Except.ok (), [])
  | none, c :: rest =>
    ((run ε e none rest).1, c :: (run ε e none rest).2)
  | some k, c :: rest =>
    if c.fallible then
      match k with
      | 0 => (Except.error e, [])
      | Nat.succ k2 => ((run ε e (some k2) rest).1, c :: (run ε e (some k2) rest).2)
    else
      ((run ε e (some k) rest).1, c :: (run ε e (some k) rest).2)

/-- `DisplayInterface::cmd_with_data` (spec §4.3): the command byte followed
by the payload, with no intervening busy-wait. -/
def cmdData (c : Command) (bs : List Nat) : List HwCall :=
  [HwCall.cmd c.address, HwCall.data bs]

/-- Modelled from the spec: `src/epd2in7/constants.rs` (the five Waveform
Constants `LUT_VCOM_DC`, `LUT_WW`, `LUT_BW`, `LUT_WB`, `LUT_BB`) is not under
`src/`; §2/§3 describe them as five fixed byte sequences, contents otherwise
unspecified, so the development is parametric in them. -/
structure LutTables where
  vcomDc : List Nat
  ww : List Nat
  bw : List Nat
  wb : List Nat
  bb : List Nat

/-- Modelled from the spec: `crate::traits::RefreshLut` is not under `src/`;
the spec calls it "a caller-supplied refresh-rate selector ... accepted for
interface symmetry with sibling panel drivers" with two profiles. -/
inductive RefreshLut where
  | full
  | quick
deriving DecidableEq, Repr

/-- `Epd2in7::set_lut` (`mod.rs` lines 232-244): busy-wait, then the five
waveform tables to their five LUT commands.  The `refreshRate` argument is
`_refresh_rate` in the source: bound but never read. -/
def setLutProgram (luts : LutTables) (refreshRate : Option RefreshLut) : List HwCall :=
  [HwCall.busyWait IS_BUSY_LOW]
    ++ cmdData .LutForVcom luts.vcomDc
    ++ cmdData .LutWhiteToWhite luts.ww
    ++ cmdData .LutBlackToWhite luts.bw
    ++ cmdData .LutWhiteToBlack luts.wb
    ++ cmdData .LutBlackToBlack luts.bb

/-- `Epd2in7::init` (`mod.rs` lines 60-104), transcribed call by call. -/
def initProgram (luts : LutTables) : List HwCall :=
  [HwCall.reset 2]
    ++ cmdData .PowerSetting [0x03, 0x00, 0x2B, 0x2B, 0x09]
    ++ cmdData .BoosterSoftStart [0x07, 0x07, 0x17]
    ++ cmdData .PowerOptimization [0x60, 0xA5]
    ++ cmdData .PowerOptimization [0x89, 0xA5]
    ++ cmdData .PowerOptimization [0x90, 0x00]
    ++ cmdData .PowerOptimization [0x93, 0x2A]
    ++ cmdData .PowerOptimization [0xA0, 0xA5]
    ++ cmdData .PowerOptimization [0xA1, 0x00]
    ++ cmdData .PowerOptimization [0x73, 0x41]
    ++ cmdData .PartialDisplayRefresh [0x00]
    ++ [HwCall.cmd Command.PowerOn.address, HwCall.busyWait IS_BUSY_LOW]
    ++ cmdData .PanelSetting [0xAF]
    ++ cmdData .PllControl [0x3A]
    ++ cmdData .VcomDcSettingRegister [0x12]
    ++ setLutProgram luts none

/-- `WaveshareDisplay::new` (`mod.rs` lines 119-135): constructs the
interface and background color, then calls `init`. -/
def newProgram (luts : LutTables) : List HwCall :=
  initProgram luts

/-- `Epd2in7::wake_up` (`mod.rs` lines 137-139): delegates to `init`. -/
def wakeUpProgram (luts : LutTables) : List HwCall :=
  initProgram luts

/-- `Epd2in7::sleep` (`mod.rs` lines 141-146). -/
def sleepProgram : List HwCall :=
  cmdData .VcomAndDataIntervalSetting [0xF7]
    ++ [HwCall.cmd Command.PowerOff.address]
    ++ cmdData .DeepSleep [0xA5]

/-- Rust `!b` on `u8` (used in `send_buffer_helper`): the bitwise complement
within one byte. -/
def invByte (b : Nat) : Nat := 255 - b % 256

/-- `Epd2in7::send_buffer_helper` (`mod.rs` lines 268-275): one `send_data`
call per buffer byte, each byte complemented. -/
def sendBufferHelperProgram (buffer : List Nat) : List HwCall :=
  buffer.map (fun b => HwCall.data [invByte b])

/-- `Epd2in7::update_frame` (`mod.rs` lines 148-165): the channel-1 block is
commented out in the source; only channel 2 is used. -/
def updateFrameProgram (buffer : List Nat) : List HwCall :=
  [HwCall.cmd Command.DataStartTransmission2.address]
    ++ sendBufferHelperProgram buffer
    ++ [HwCall.cmd Command.DataStop.address]

/-- `as u8` cast on a Rust `u32` value. -/
def u8 (n : Nat) : Nat := n % 256

/-- `Epd2in7::update_partial_frame` (`mod.rs` lines 167-193): window command,
eight single-byte `send_data` calls, busy-wait, complemented buffer, stop. -/
def updatePartialFrameProgram (buffer : List Nat) (x y width height : Nat) :
    List HwCall :=
  [HwCall.cmd Command.PartialDataStartTransmission1.address,
   HwCall.data [u8 (x >>> 8)],
   HwCall.data [u8 (Nat.land x 0xf8)],
   HwCall.data [u8 (y >>> 8)],
   HwCall.data [u8 (Nat.land y 0xff)],
   HwCall.data [u8 (width >>> 8)],
   HwCall.data [u8 (Nat.land width 0xf8)],
   HwCall.data [u8 (height >>> 8)],
   HwCall.data [u8 (Nat.land height 0xff)],
   HwCall.busyWait IS_BUSY_LOW]
    ++ sendBufferHelperProgram buffer
    ++ [HwCall.cmd Command.DataStop.address]

/-- `Epd2in7::display_frame` (`mod.rs` lines 195-199). -/
def displayFrameProgram : List HwCall :=
  [HwCall.cmd Command.DisplayRefresh.address, HwCall.busyWait IS_BUSY_LOW]

/-- `Epd2in7::update_and_display_frame` (`mod.rs` lines 201-210):
`update_frame` then `display_frame`, each with `?`. -/
def updateAndDisplayFrameProgram (buffer : List Nat) : List HwCall :=
  updateFrameProgram buffer ++ displayFrameProgram

/-- Outcome of `Epd2in7::clear_frame`: the body (`mod.rs` lines 212-214) is
`todo!()`, which panics unconditionally before any hardware call, so the
result type needs a divergence case alongside normal/error returns. -/
inductive ClearFrameOutcome (ε : Type) where
  | ok
  | err (e : ε)
  | panicked
deriving Repr

/-- `Epd2in7::clear_frame` (`mod.rs` lines 212-214): `todo!()` — panics for
every driver state and transport behaviour, emitting no hardware call. -/
def clearFrameRun (ε : Type) (failAt : Option Nat) (e : ε) :
    ClearFrameOutcome ε × List HwCall :=
  (ClearFrameOutcome.panicked, [])

/-- Modelled from the spec: `crate::color::Color` is not under `src/`;
§3/§4.2 describe a 1-bit color with white the default background, stored as
"all-1 bits for white, by convention". -/
inductive Color where
  | Black
  | White
deriving DecidableEq, Repr

/-- Modelled from the spec: `Color::get_byte_value` — the byte pattern a
framebuffer is pre-filled with (all-1 bits for white). -/
def Color.getByteValue : Color → Nat
  | .White => 0xFF
  | .Black => 0x00

/-- `mod.rs`: `pub const DEFAULT_BACKGROUND_COLOR: Color = Color::White`. -/
def DEFAULT_BACKGROUND_COLOR : Color := Color.White

/-- Modelled from the spec: `crate::graphics::DisplayRotation` is not under
`src/`; §3 gives "an orientation value (one of four rotations)" with
landscape 0° the default. -/
inductive DisplayRotation where
  | rotate0
  | rotate90
  | rotate180
  | rotate270
deriving DecidableEq, Repr

/-- `embedded_graphics` `BinaryColor` (the `DrawTarget` color of
`Display2in7` in `graphics.rs`). -/
inductive BinaryColor where
  | on
  | off
deriving DecidableEq, Repr

/-- `embedded_graphics` `Pixel`: a point with `i32` coordinates and a
color. -/
structure Pixel where
  x : Int
  y : Int
  color : BinaryColor

/-- `Display2in7` (`graphics.rs` lines 10-13): the packed framebuffer
(`WIDTH * HEIGHT / 8` bytes) plus the rotation tag. -/
structure Display2in7 where
  buffer : List Nat
  rotation : DisplayRotation

/-- `Default for Display2in7` (`graphics.rs` lines 15-23): buffer pre-filled
with the default background color's byte value, default rotation. -/
def Display2in7.default : Display2in7 :=
  { buffer := List.replicate (WIDTH * HEIGHT / 8) DEFAULT_BACKGROUND_COLOR.getByteValue
    rotation := DisplayRotation.rotate0 }

/-- Modelled from the spec: the bounds check of `Display::draw_helper`
(`crate::graphics`, not under `src/`).  §4.2: "Out-of-bounds coordinates are
silently ignored"; the addressable area is `WIDTH × HEIGHT` in the panel's
native landscape orientations and `HEIGHT × WIDTH` in the two rotated ones;
negative `i32` coordinates are outside. -/
def outsideDisplay (rot : DisplayRotation) (x y : Int) : Bool :=
  decide (x < 0) || decide (y < 0) ||
    (match rot with
     | .rotate0 | .rotate180 =>
       decide ((WIDTH : Int) ≤ x) || decide ((HEIGHT : Int) ≤ y)
     | .rotate90 | .rotate270 =>
       decide ((HEIGHT : Int) ≤ x) || decide ((WIDTH : Int) ≤ y))

/-- Modelled from the spec: the coordinate mapping of `draw_pixel` (§4.2) —
the logical point under the current orientation is mapped to a physical
point in the panel's native frame before the byte/bit formula applies. -/
def rotateCoords (rot : DisplayRotation) (x y : Nat) : Nat × Nat :=
  match rot with
  | .rotate0 => (x, y)
  | .rotate90 => (WIDTH - 1 - y, x)
  | .rotate180 => (WIDTH - 1 - x, HEIGHT - 1 - y)
  | .rotate270 => (y, HEIGHT - 1 - x)

/-- Modelled from the spec: the in-bounds write of `draw_pixel` (§4.2) —
byte index `y' * (WIDTH/8) + x'/8`, bit index `7 - (x' mod 8)` (MSB-first);
the bit is set for the background polarity (white) and cleared for ink,
matching the all-1-white storage convention. -/
def setPixelByte (color : BinaryColor) (mask byte : Nat) : Nat :=
  match color with
  | .on => Nat.land byte (Nat.xor 255 mask)
  | .off => Nat.lor byte mask

/-- Modelled from the spec: `Display::draw_helper` (§4.2) — bounds check
first, then the coordinate mapping and single-bit update. -/
def Display2in7.drawHelper (d : Display2in7) (p : Pixel) : Display2in7 :=
  if outsideDisplay d.rotation p.x p.y then d
  else
    let phys := rotateCoords d.rotation p.x.toNat p.y.toNat
    let index := phys.2 * (WIDTH / 8) + phys.1 / 8
    let mask := 2 ^ (7 - phys.1 % 8)
    { d with buffer := d.buffer.set index (setPixelByte p.color mask (d.buffer.getD index 0)) }

/-- `Display2in7::draw_iter` (`graphics.rs` lines 29-37): `draw_helper` on
each pixel in order; the error type is `Infallible`, so the fold is total
and always "returns `Ok`". -/
def Display2in7.drawIter (d : Display2in7) (pixels : List Pixel) : Display2in7 :=
  pixels.foldl Display2in7.drawHelper d

/-! ### Interpreter lemmas -/

/-- Without an injected fault, every program runs to completion and emits
exactly its own call list. -/
theorem run_none (ε : Type) (e : ε) :
    ∀ prog : List HwCall, run ε e none prog = (Except.ok (), prog)
  | [] => rfl
  | c :: rest => by
    show ((run ε e none rest).1, c :: (run ε e none rest).2) = _
    rw [run_none ε e rest]

/-- Fault injected at fallible call `k` (in range): the run returns the
injected error unchanged, the emitted trace is a prefix of the program, and
it contains exactly `k` fallible calls — nothing at or after the failing
transmission is emitted. -/
theorem run_fail (ε : Type) (e : ε) :
    ∀ (prog : List HwCall) (k : Nat), k < countFallible prog →
      (run ε e (some k) prog).1 = Except.error e ∧
      (∃ s, (run ε e (some k) prog).2 ++ s = prog) ∧
      countFallible (run ε e (some k) prog).2 = k := by
  intro prog
  induction prog with
  | nil =>
    intro k h
    simp [countFallible] at h
  | cons c rest ih =>
    intro k h
    by_cases hf : c.fallible
    · cases k with
      | zero =>
        refine ⟨?_, ⟨c :: rest, ?_⟩, ?_⟩ <;>
          simp [run, hf, countFallible]
      | succ k2 =>
        have h2 : k2 < countFallible rest := by
          simp [countFallible, hf] at h
          omega
        obtain ⟨h1, ⟨s, hs⟩, h3⟩ := ih k2 h2
        refine ⟨?_, ⟨s, ?_⟩, ?_⟩
        · simpa [run, hf] using h1
        · simp only [run, hf, if_true]
          simpa using hs
        · simp only [run, hf, if_true, countFallible]
          omega
    · have h2 : k < countFallible rest := by
        simpa [countFallible, hf] using h
      obtain ⟨h1, ⟨s, hs⟩, h3⟩ := ih k h2
      refine ⟨?_, ⟨s, ?_⟩, ?_⟩
      · simpa [run, hf] using h1
      · simp only [run, hf, if_false]
        simpa using hs
      · simp only [run, hf, if_false, countFallible]
        simp [hf]
        omega

/-- The shape of a clean error propagation used for the error-handling
claims: same error value out, trace a prefix of the program, exactly `k`
fallible calls emitted before the failure. -/
def failsCleanly (ε : Type) (e : ε) (prog : List HwCall) (k : Nat) : Prop :=
  (run ε e (some k) prog).1 = Except.error e ∧
  (∃ s, (run ε e (some k) prog).2 ++ s = prog) ∧
  countFallible (run ε e (some k) prog).2 = k

theorem failsCleanly_of_lt (ε : Type) (e : ε) (prog : List HwCall) (k : Nat)
    (h : k < countFallible prog) : failsCleanly ε e prog k :=
  run_fail ε e prog k h

/-- A pixel whose coordinates fail the bounds check leaves the display
untouched. -/
theorem drawHelper_outside (d : Display2in7) (p : Pixel)
    (h : outsideDisplay d.rotation p.x p.y = true) :
    d.drawHelper p = d := by
  simp [Display2in7.drawHelper, h]

/-- Pixels that all fail the bounds check fold to the identity on the
display state. -/
theorem drawIter_all_outside (pixels : List Pixel) :
    ∀ d : Display2in7,
      (∀ p ∈ pixels, outsideDisplay d.rotation p.x p.y = true) →
        d.drawIter pixels = d := by
  induction pixels with
  | nil => intro d _; rfl
  | cons p rest ih =>
    intro d h
    have hp := h p (List.mem_cons_self p rest)
    show (d.drawHelper p).drawIter rest = d
    rw [drawHelper_outside d p hp]
    exact ih d (fun q hq => h q (List.mem_cons_of_mem p hq))

/-! ### Claims -/

/-- C1: `init` (and `new`, which delegates to it) emits exactly the fixed
hardware-call sequence — reset with 2 pulses, PowerSetting
`[03 00 2B 2B 09]`, BoosterSoftStart `[07 07 17]`, the seven
PowerOptimization pairs, the PartialDisplayRefresh priming write of a zero
byte, PowerOn followed by the active-low busy-wait, PanelSetting `[AF]`,
PllControl `[3A]`, VcomDcSettingRegister `[12]`, then the Load-LUTs
sequence — with nothing else interleaved, for every LUT-table contents. -/
theorem init_emits_exact_sequence (luts : LutTables) (ε : Type) (e : ε) :
    run ε e none (initProgram luts) =
      (Except.ok (),
       [HwCall.reset 2,
        HwCall.cmd 0x01, HwCall.data [0x03, 0x00, 0x2B, 0x2B, 0x09],
        HwCall.cmd 0x06, HwCall.data [0x07, 0x07, 0x17],
        HwCall.cmd 0xF8, HwCall.data [0x60, 0xA5],
        HwCall.cmd 0xF8, HwCall.data [0x89, 0xA5],
        HwCall.cmd 0xF8, HwCall.data [0x90, 0x00],
        HwCall.cmd 0xF8, HwCall.data [0x93, 0x2A],
        HwCall.cmd 0xF8, HwCall.data [0xA0, 0xA5],
        HwCall.cmd 0xF8, HwCall.data [0xA1, 0x00],
        HwCall.cmd 0xF8, HwCall.data [0x73, 0x41],
        HwCall.cmd 0x16, HwCall.data [0x00],
        HwCall.cmd 0x04, HwCall.busyWait true,
        HwCall.cmd 0x00, HwCall.data [0xAF],
        HwCall.cmd 0x30, HwCall.data [0x3A],
        HwCall.cmd 0x82, HwCall.data [0x12],
        HwCall.busyWait true,
        HwCall.cmd 0x20, HwCall.data luts.vcomDc,
        HwCall.cmd 0x21, HwCall.data luts.ww,
        HwCall.cmd 0x22, HwCall.data luts.bw,
        HwCall.cmd 0x23, HwCall.data luts.wb,
        HwCall.cmd 0x24, HwCall.data luts.bb]) ∧
    newProgram luts = initProgram luts := by
  refine ⟨?_, rfl⟩
  rw [run_none]
  simp [initProgram, cmdData, setLutProgram, IS_BUSY_LOW, Command.address]

/-- C2: for a full-framebuffer buffer (`WIDTH*HEIGHT/8 = 5808` bytes),
`update_frame` emits DataStartTransmission2 (`0x13`), then one complemented
data byte per buffer byte (5808 of them), then DataStop (`0x11`); no
DataStartTransmission1 (`0x10`) command and no busy-wait occur, and the
per-byte transform is the bitwise complement. -/
theorem update_frame_full_buffer_protocol (buffer : List Nat) (ε : Type) (e : ε)
    (hlen : buffer.length = WIDTH * HEIGHT / 8) :
    run ε e none (updateFrameProgram buffer) =
      (Except.ok (),
       HwCall.cmd 0x13 ::
         ((buffer.map fun b => HwCall.data [invByte b]) ++ [HwCall.cmd 0x11])) ∧
    (buffer.map fun b => HwCall.data [invByte b]).length = WIDTH * HEIGHT / 8 ∧
    WIDTH * HEIGHT / 8 = 5808 ∧
    (∀ b < 256, invByte b = Nat.xor b 255) ∧
    HwCall.cmd Command.DataStartTransmission1.address ∉ updateFrameProgram buffer ∧
    (∀ pol : Bool, HwCall.busyWait pol ∉ updateFrameProgram buffer) := by
  refine ⟨?_, ?_, by decide, by decide, ?_, ?_⟩
  · rw [run_none]
    rfl
  · simpa using hlen
  · simp [updateFrameProgram, sendBufferHelperProgram, Command.address]
  · intro pol
    simp [updateFrameProgram, sendBufferHelperProgram]

/-- C2 witness: a concrete all-zero full framebuffer satisfies the length
hypothesis and the protocol property. -/
theorem update_frame_full_buffer_protocol_witness :
    (List.replicate 5808 0).length = WIDTH * HEIGHT / 8 ∧
    run Unit () none (updateFrameProgram (List.replicate 5808 0)) =
      (Except.ok (),
       HwCall.cmd 0x13 ::
         (((List.replicate 5808 0).map fun b => HwCall.data [invByte b]) ++
           [HwCall.cmd 0x11])) :=
  ⟨by rw [List.length_replicate]; rfl,
   (update_frame_full_buffer_protocol (List.replicate 5808 0) Unit ()
     (by rw [List.length_replicate]; rfl)).1⟩

/-- C3: `update_partial_frame` emits the window command, the eight address
bytes `x>>8`, `x&0xF8`, `y>>8`, `y&0xFF`, `width>>8`, `width&0xF8`,
`height>>8`, `height&0xFF` (each a `u8` cast, one `send_data` call apiece),
a busy-wait, the complemented buffer, then DataStop; the `&0xF8` masks
discard the low 3 bits, and the concrete window `(8, 0, 16, 4)` encodes to
`[00 08 00 00 00 10 00 04]`. -/
theorem update_partial_frame_window_encoding (buffer : List Nat)
    (x y w h : Nat) (ε : Type) (e : ε)
    (hx : x < 2 ^ 32) (hy : y < 2 ^ 32) (hw : w < 2 ^ 32) (hh : h < 2 ^ 32) :
    run ε e none (updatePartialFrameProgram buffer x y w h) =
      (Except.ok (),
       [HwCall.cmd 0x14,
        HwCall.data [u8 (x >>> 8)], HwCall.data [u8 (Nat.land x 0xf8)],
        HwCall.data [u8 (y >>> 8)], HwCall.data [u8 (Nat.land y 0xff)],
        HwCall.data [u8 (w >>> 8)], HwCall.data [u8 (Nat.land w 0xf8)],
        HwCall.data [u8 (h >>> 8)], HwCall.data [u8 (Nat.land h 0xff)],
        HwCall.busyWait true]
         ++ (buffer.map fun b => HwCall.data [invByte b])
         ++ [HwCall.cmd 0x11]) ∧
    (∀ v < 256, Nat.land v 0xf8 = v - v % 8) ∧
    [u8 ((8 : Nat) >>> 8), u8 (Nat.land 8 0xf8),
     u8 ((0 : Nat) >>> 8), u8 (Nat.land 0 0xff),
     u8 ((16 : Nat) >>> 8), u8 (Nat.land 16 0xf8),
     u8 ((4 : Nat) >>> 8), u8 (Nat.land 4 0xff)] =
      [0x00, 0x08, 0x00, 0x00, 0x00, 0x10, 0x00, 0x04] := by
  refine ⟨?_, by decide, by decide⟩
  rw [run_none]
  rfl

/-- C3 witness: the window of the claim's concrete example, with a one-byte
buffer. -/
theorem update_partial_frame_window_encoding_witness :
    ((8 : Nat) < 2 ^ 32 ∧ (0 : Nat) < 2 ^ 32 ∧
     (16 : Nat) < 2 ^ 32 ∧ (4 : Nat) < 2 ^ 32) ∧
    run Unit () none (updatePartialFrameProgram [0xAB] 8 0 16 4) =
      (Except.ok (),
       [HwCall.cmd 0x14,
        HwCall.data [u8 ((8 : Nat) >>> 8)], HwCall.data [u8 (Nat.land 8 0xf8)],
        HwCall.data [u8 ((0 : Nat) >>> 8)], HwCall.data [u8 (Nat.land 0 0xff)],
        HwCall.data [u8 ((16 : Nat) >>> 8)], HwCall.data [u8 (Nat.land 16 0xf8)],
        HwCall.data [u8 ((4 : Nat) >>> 8)], HwCall.data [u8 (Nat.land 4 0xff)],
        HwCall.busyWait true]
         ++ ([0xAB].map fun b => HwCall.data [invByte b])
         ++ [HwCall.cmd 0x11]) :=
  ⟨by decide,
   (update_partial_frame_window_encoding [0xAB] 8 0 16 4 Unit ()
     (by decide) (by decide) (by decide) (by decide)).1⟩

/-- C4: every I/O-performing driver operation propagates an injected
transport error unchanged — for any error type and value, any operation,
any arguments, and any in-range fallible-call position `k`, the run returns
exactly the injected error, the emitted trace is a prefix of the
operation's full call sequence, and exactly `k` transmissions happen before
the failure (nothing at or after the failing call is transmitted, no
retry). -/
theorem error_propagation_all_operations (ε : Type) (e : ε) (k : Nat) :
    (∀ luts : LutTables, k < countFallible (initProgram luts) →
      failsCleanly ε e (initProgram luts) k) ∧
    (∀ luts : LutTables, k < countFallible (newProgram luts) →
      failsCleanly ε e (newProgram luts) k) ∧
    (∀ luts : LutTables, k < countFallible (wakeUpProgram luts) →
      failsCleanly ε e (wakeUpProgram luts) k) ∧
    (k < countFallible sleepProgram → failsCleanly ε e sleepProgram k) ∧
    (∀ buffer : List Nat, k < countFallible (updateFrameProgram buffer) →
      failsCleanly ε e (updateFrameProgram buffer) k) ∧
    (∀ (buffer : List Nat) (x y w h : Nat),
      k < countFallible (updatePartialFrameProgram buffer x y w h) →
      failsCleanly ε e (updatePartialFrameProgram buffer x y w h) k) ∧
    (k < countFallible displayFrameProgram →
      failsCleanly ε e displayFrameProgram k) ∧
    (∀ buffer : List Nat,
      k < countFallible (updateAndDisplayFrameProgram buffer) →
      failsCleanly ε e (updateAndDisplayFrameProgram buffer) k) ∧
    (∀ (luts : LutTables) (r : Option RefreshLut),
      k < countFallible (setLutProgram luts r) →
      failsCleanly ε e (setLutProgram luts r) k) := by
  refine ⟨?_, ?_, ?_, ?_, ?_, ?_, ?_, ?_, ?_⟩ <;>
    intros <;> exact failsCleanly_of_lt ε e _ k (by assumption)

/-- C4 witness: injecting the error `37 : Nat` at the first fallible call of
`sleep` yields exactly that error and an empty prefix of transmissions. -/
theorem error_propagation_all_operations_witness :
    0 < countFallible sleepProgram ∧ failsCleanly Nat 37 sleepProgram 0 :=
  ⟨by decide, (error_propagation_all_operations Nat 37 0).2.2.2.1 (by decide)⟩

/-- C5: `sleep` emits exactly VcomAndDataIntervalSetting (`0x50`) with the
byte `0xF7`, the PowerOff command (`0x02`), and DeepSleep (`0x07`) with the
check byte `0xA5`, with no busy-wait anywhere in the sequence. -/
theorem sleep_emits_exact_sequence :
    (∀ (ε : Type) (e : ε),
      run ε e none sleepProgram =
        (Except.ok (),
         [HwCall.cmd 0x50, HwCall.data [0xF7],
          HwCall.cmd 0x02,
          HwCall.cmd 0x07, HwCall.data [0xA5]])) ∧
    ∀ pol : Bool, HwCall.busyWait pol ∉ sleepProgram := by
  constructor
  · intro ε e
    rw [run_none]
    rfl
  · intro pol
    cases pol <;> decide

/-- C6: pixels whose coordinates fall outside the addressable area under
the current orientation (including negative coordinates) leave the
framebuffer byte array untouched — `draw_iter` is a total no-op on them,
returning the display unchanged. -/
theorem draw_iter_out_of_bounds_noop (d : Display2in7) (pixels : List Pixel)
    (h : ∀ p ∈ pixels, outsideDisplay d.rotation p.x p.y = true) :
    d.drawIter pixels = d ∧ (d.drawIter pixels).buffer = d.buffer := by
  have main := drawIter_all_outside pixels d h
  exact ⟨main, by rw [main]⟩

/-- C6 witness: three out-of-bounds pixels (negative, `x = WIDTH`,
`y = HEIGHT`) on the default display change nothing. -/
theorem draw_iter_out_of_bounds_noop_witness :
    (∀ p ∈ [Pixel.mk (-1) 5 BinaryColor.on, Pixel.mk 264 0 BinaryColor.off,
            Pixel.mk 3 176 BinaryColor.on],
       outsideDisplay Display2in7.default.rotation p.x p.y = true) ∧
    Display2in7.default.drawIter
        [Pixel.mk (-1) 5 BinaryColor.on, Pixel.mk 264 0 BinaryColor.off,
         Pixel.mk 3 176 BinaryColor.on] =
      Display2in7.default :=
  ⟨by decide,
   (draw_iter_out_of_bounds_noop Display2in7.default
     [Pixel.mk (-1) 5 BinaryColor.on, Pixel.mk 264 0 BinaryColor.off,
      Pixel.mk 3 176 BinaryColor.on] (by decide)).1⟩

/-- C7: `set_lut` busy-waits and then writes the five waveform tables to
the five LUT commands in the order VCOM (`0x20`), white-to-white (`0x21`),
black-to-white (`0x22`), white-to-black (`0x23`), black-to-black (`0x24`);
the refresh-rate selector is ignored — any two argument values give the
byte-for-byte identical call sequence. -/
theorem set_lut_order_and_ignores_refresh_rate (luts : LutTables)
    (ε : Type) (e : ε) (r r1 r2 : Option RefreshLut) :
    run ε e none (setLutProgram luts r) =
      (Except.ok (),
       [HwCall.busyWait true,
        HwCall.cmd 0x20, HwCall.data luts.vcomDc,
        HwCall.cmd 0x21, HwCall.data luts.ww,
        HwCall.cmd 0x22, HwCall.data luts.bw,
        HwCall.cmd 0x23, HwCall.data luts.wb,
        HwCall.cmd 0x24, HwCall.data luts.bb]) ∧
    setLutProgram luts r1 = setLutProgram luts r2 := by
  refine ⟨?_, rfl⟩
  rw [run_none]
  simp [setLutProgram, cmdData, IS_BUSY_LOW, Command.address]

/-- C8: `wake_up` delegates to `init`: its call program is the very same
list, so under every transport behaviour (success or fault at any
position) it emits the same calls and returns the same result as `init`. -/
theorem wake_up_equals_init (luts : LutTables) (ε : Type) (e : ε)
    (failAt : Option Nat) :
    wakeUpProgram luts = initProgram luts ∧
    run ε e failAt (wakeUpProgram luts) = run ε e failAt (initProgram luts) :=
  ⟨rfl, rfl⟩

/-- C9 counterexample: `clear_frame` neither completes normally nor returns
a transport error — its body is `todo!()`, so the concrete run (no injected
fault) panics. -/
theorem clear_frame_defined_behaviour_counterexample :
    ¬ ((clearFrameRun Unit none ()).1 = ClearFrameOutcome.ok ∨
       ∃ e, (clearFrameRun Unit none ()).1 = ClearFrameOutcome.err e) := by
  intro hc
  rcases hc with hok | ⟨e, herr⟩ <;> simp [clearFrameRun] at *

/-- C9 amended: `clear_frame` is unimplemented — for every driver state and
transport behaviour it panics (`todo!()`) before emitting any hardware
call. -/
theorem clear_frame_unconditionally_panics (ε : Type) (failAt : Option Nat)
    (e : ε) :
    clearFrameRun ε failAt e = (ClearFrameOutcome.panicked, []) := rfl

/-- C10: neither `update_frame` nor `update_partial_frame` validates the
buffer length — for a buffer of any length `n` and any window, exactly `n`
complemented data bytes are transmitted between the start-transmission
command and DataStop, with a successful result, no truncation and no
padding; the empty buffer yields the start command immediately followed by
DataStop. -/
theorem send_buffer_no_length_validation (buffer : List Nat)
    (x y w h : Nat) (ε : Type) (e : ε) :
    run ε e none (updateFrameProgram buffer) =
      (Except.ok (),
       HwCall.cmd 0x13 ::
         ((buffer.map fun b => HwCall.data [invByte b]) ++ [HwCall.cmd 0x11])) ∧
    run ε e none (updatePartialFrameProgram buffer x y w h) =
      (Except.ok (),
       [HwCall.cmd 0x14,
        HwCall.data [u8 (x >>> 8)], HwCall.data [u8 (Nat.land x 0xf8)],
        HwCall.data [u8 (y >>> 8)], HwCall.data [u8 (Nat.land y 0xff)],
        HwCall.data [u8 (w >>> 8)], HwCall.data [u8 (Nat.land w 0xf8)],
        HwCall.data [u8 (h >>> 8)], HwCall.data [u8 (Nat.land h 0xff)],
        HwCall.busyWait true]
         ++ (buffer.map fun b => HwCall.data [invByte b])
         ++ [HwCall.cmd 0x11]) ∧
    (buffer.map fun b => HwCall.data [invByte b]).length = buffer.length ∧
    updateFrameProgram [] = [HwCall.cmd 0x13, HwCall.cmd 0x11] := by
  refine ⟨?_, ?_, by simp, by decide⟩ <;> rw [run_none] <;> rfl

end Epd2in7
